import Mathlib

/-!
Verification of the check-orchestration layer of the feed-checker client.

The definitions below are a shallow embedding of the orchestration code:

* the response handling of the seven API endpoints of `FeedCheckerAPI`
  (`checkFeed`, `checkSyntax`, `getProblematicOffers`, `checkFeedAsync`,
  `getJobStatus`, `deleteJob`, `exportToExcel`),
* the server-push (SSE) event handler of `checkFeedWithProgress`,
* the poll-loop state machine of `checkFeedWithPolling`,
* the transport-mode selection, upload-progress estimator and the
  result handoff of the `Home` submit handler.

JSON values delivered to the client are modelled by the inductive `Json`;
`JSON.parse` / `response.json()` are runtime primitives, so a response
carries both its raw body text and the optional parse result.  JavaScript
string primitives (`trim`, `startsWith`, `toLowerCase`, `includes`,
`substring`) are re-implemented over lists of characters so that all
predicates evaluate inside the kernel.  JavaScript numbers are modelled
as exact rationals; the one place where non-finite values matter is made
explicit through the `JSNumber` wrapper.
-/

/-- A JSON value as delivered to the orchestration layer. -/
inductive Json where
  | null
  | bool (b : Bool)
  | num (q : ℚ)
  | str (s : String)
  | arr (elems : List Json)
  | obj (fields : List (String × Json))

/-- First-match association lookup used for JavaScript property access. -/
def lookupStr : List (String × Json) → String → Option Json
  | [], _ => none
  | (k, v) :: rest, key => if k == key then some v else lookupStr rest key

/-- JavaScript property access `x.key`: `none` models `undefined`
(also for access on a non-object). -/
def Json.getField : Json → String → Option Json
  | .obj fields, key => lookupStr fields key
  | _, _ => none

/-- Property access through an optional value (`x?.key`). -/
def optField (v : Option Json) (key : String) : Option Json :=
  match v with
  | some j => j.getField key
  | none => none

/-- JavaScript truthiness of a value. -/
def jsTruthy : Json → Bool
  | .null => false
  | .bool b => b
  | .num q => !(q == 0)
  | .str s => !(s == "")
  | .arr _ => true
  | .obj _ => true

/-- Truthiness of a possibly-`undefined` value. -/
def optTruthy : Option Json → Bool
  | some v => jsTruthy v
  | none => false

/-- `typeof x === 'object'` (true for objects, arrays and `null`). -/
def jsTypeofObject : Json → Bool
  | .obj _ => true
  | .arr _ => true
  | .null => true
  | _ => false

/-- Strict equality `x === "s"` of a possibly-`undefined` value
against a string literal. -/
def fieldEqStr (v : Option Json) (s : String) : Bool :=
  match v with
  | some (.str t) => t == s
  | _ => false

mutual
/-- JavaScript string coercion `String(x)` (used by `new Error(x)`). -/
def jsDisplay : Json → String
  | .null => "null"
  | .bool b => cond b "true" "false"
  | .num q => toString q.num ++ (if q.den == 1 then "" else "/" ++ toString q.den)
  | .str s => s
  | .arr elems => jsDisplayArr elems
  | .obj _ => "[object Object]"

/-- Coercion of an array joins the coerced elements with commas. -/
def jsDisplayArr : List Json → String
  | [] => ""
  | [j] => jsDisplay j
  | j :: rest => jsDisplay j ++ "," ++ jsDisplayArr rest
end

mutual
/-- `JSON.stringify` (string escaping is not modelled: no analysed
message inspects the serialization of a string containing quotes). -/
def Json.stringify : Json → String
  | .null => "null"
  | .bool b => cond b "true" "false"
  | .num q => toString q.num ++ (if q.den == 1 then "" else "/" ++ toString q.den)
  | .str s => "\"" ++ s ++ "\""
  | .arr elems => "[" ++ stringifyArr elems ++ "]"
  | .obj fields => "\x7b" ++ stringifyFields fields ++ "\x7d"

def stringifyArr : List Json → String
  | [] => ""
  | [j] => Json.stringify j
  | j :: rest => Json.stringify j ++ "," ++ stringifyArr rest

def stringifyFields : List (String × Json) → String
  | [] => ""
  | [(k, v)] => "\"" ++ k ++ "\":" ++ Json.stringify v
  | (k, v) :: rest => "\"" ++ k ++ "\":" ++ Json.stringify v ++ "," ++ stringifyFields rest
end

/-- `v || d` collapsed to the message string finally stored in an
`Error`: the coercion of `v` when `v` is truthy, otherwise `d`. -/
def jsOrDefault (v : Option Json) (d : String) : String :=
  match v with
  | some x => if jsTruthy x then jsDisplay x else d
  | none => d

/-- Message of `new Error(v)` without a fallback: the coercion of `v`,
or the empty string when `v` is `undefined`. -/
def jsErrorMsg (v : Option Json) : String :=
  match v with
  | some x => jsDisplay x
  | none => ""

/-! ### JavaScript string primitives -/

/-- Whitespace removed by `String.prototype.trim`. -/
def isWsChar (c : Char) : Bool :=
  c == ' ' || c == '\t' || c == '\n' || c == '\r'

/-- Drop leading whitespace (the part of `trim` the prefix checks see). -/
def dropWs : List Char → List Char
  | [] => []
  | c :: rest => if isWsChar c then dropWs rest else c :: rest

/-- Character-list prefix test. -/
def startsWithChars : List Char → List Char → Bool
  | [], _ => true
  | _ :: _, [] => false
  | p :: ps, c :: cs => p == c && startsWithChars ps cs

/-- `s.trim().startsWith(p)`. -/
def jsTrimStartsWith (s : String) (p : String) : Bool :=
  startsWithChars p.toList (dropWs s.toList)

/-- ASCII lower-casing of one character, as used by the HTML checks. -/
def lowerChar (c : Char) : Char :=
  if 65 ≤ c.toNat && c.toNat ≤ 90 then Char.ofNat (c.toNat + 32) else c

/-- `s.trim().toLowerCase().startsWith(p)`. -/
def jsTrimLowerStartsWith (s : String) (p : String) : Bool :=
  startsWithChars p.toList ((dropWs s.toList).map lowerChar)

/-- Substring search used by `String.prototype.includes`. -/
def containsSub (hay : List Char) (needle : List Char) : Bool :=
  match hay with
  | [] => startsWithChars needle []
  | _ :: rest => startsWithChars needle hay || containsSub rest needle

/-- `s.includes(sub)`. -/
def jsIncludes (s : String) (sub : String) : Bool :=
  containsSub s.toList sub.toList

/-- `s.substring(0, n)`. -/
def takeChars (s : String) (n : Nat) : String :=
  String.mk (s.toList.take n)

/-! ### HTTP responses -/

/-- A delivered HTTP response as observed by the client code.
`bodyText` is what `response.text()` / `xhr.responseText` yields;
`bodyJson` is the outcome of `JSON.parse` on that body (`none` when
parsing throws), decoupling the runtime JSON parser from the logic
under verification.  `contentType` is the `content-type` header with
`null` already collapsed to the empty string (the code reads
`headers.get("content-type") || ""`). -/
structure HttpResponse where
  ok : Bool
  status : Nat
  statusText : String
  contentType : String
  bodyText : String
  bodyJson : Option Json

/-- `contentType.includes("application/json")`. -/
def ctHasJson (r : HttpResponse) : Bool :=
  jsIncludes r.contentType "application/json"

/-- The HTML-page test used on success paths and by the poller:
`text.trim().startsWith("<!") || text.trim().startsWith("<html")`. -/
def htmlBody (r : HttpResponse) : Bool :=
  jsTrimStartsWith r.bodyText "<!" || jsTrimStartsWith r.bodyText "<html"

/-- The case-folded HTML-page test of `checkFeed`'s non-OK branch:
`text.trim().toLowerCase().startsWith('<!doctype') || ...('<html')`. -/
def htmlBodyLower (r : HttpResponse) : Bool :=
  jsTrimLowerStartsWith r.bodyText "<!doctype" || jsTrimLowerStartsWith r.bodyText "<html"

/-! ### Error messages used by the client (verbatim) -/

def msg502Full : String :=
  "Сервер недоступен (502 Bad Gateway). Бэкенд не отвечает. Проверьте логи бэкенда."

def msg502Short : String :=
  "Сервер недоступен (502 Bad Gateway). Бэкенд не отвечает."

def msgHtmlPage : String :=
  "Сервер вернул HTML страницу вместо данных. Возможно, требуется авторизация или URL неверен."

def msgUnexpectedFormat (ct : String) : String :=
  "Сервер вернул неожиданный формат: " ++ ct

def msgResultNotFound : String := "Результат не найден"

def msgCannotGetResult : String := "Не удалось получить результат"

def msgGenericCheck : String := "Ошибка при проверке фида"

def msgProcessingFailed : String := "Ошибка при обработке ответа сервера"

def msgJobFailedDefault : String := "Ошибка при обработке фида"

def msgDownloadDefault : String := "Ошибка загрузки фида"

def msgJobNotFound : String := "Задача не найдена"

def msgExportDefault : String := "Ошибка при экспорте в Excel"

/-- `` `Ошибка ${status}: ${statusText || "Неизвестная ошибка"}` ``. -/
def statusLine (r : HttpResponse) : String :=
  "Ошибка " ++ toString r.status ++ ": " ++
    (if r.statusText == "" then "Неизвестная ошибка" else r.statusText)

/-! ### Terminal outcomes of one endpoint call -/

/-- Result of one endpoint method on a delivered response.  Thrown plain
`Error`s are `errPlain` with their message, errors decorated with a
`.downloadError` payload are `errDownload`, and an uncaught exception of
the runtime JSON parser is `errParse`. -/
inductive ApiOutcome where
  | success (body : Json)
  | successBlob (text : String)
  | successUnit
  | errPlain (msg : String)
  | errDownload (msg : String) (detail : Json)
  | errParse

/-- Response handling of `checkFeed` (`POST /api/check-feed`).
In the non-OK branch the two `throw`s inside the inner `try` carry a
`message`, so the `catch (jsonError)` re-raises them unchanged; a parse
failure of `response.json()` is also re-raised unchanged (a
`SyntaxError` has a truthy `message`). -/
def handleCheckFeedResponse (r : HttpResponse) : ApiOutcome :=
  if !r.ok then
    if !ctHasJson r then
      if htmlBodyLower r then .errPlain msgHtmlPage
      else .errPlain (statusLine r ++ ". Ответ сервера: " ++ takeChars r.bodyText 200)
    else
      match r.bodyJson with
      | none => .errParse
      | some errorData =>
        match errorData.getField "detail" with
        | some detail =>
          if jsTruthy detail &&
              (fieldEqStr (detail.getField "error_type") "DOWNLOAD_ERROR" ||
                optTruthy (detail.getField "error_code")) then
            .errDownload (jsOrDefault (detail.getField "message") msgDownloadDefault) detail
          else
            .errPlain (match detail with
              | .str s => s
              | _ => jsOrDefault (detail.getField "message") (jsOrDefault (some detail) msgGenericCheck))
        | none => .errPlain msgGenericCheck
  else
    if !ctHasJson r then
      if htmlBody r then .errPlain msg502Full
      else
        match r.bodyJson with
        | some j => .success j
        | none => .errPlain (msgUnexpectedFormat r.contentType)
    else
      match r.bodyJson with
      | some j => .success j
      | none => .errParse

/-- Response handling of `checkSyntax` (`POST /api/check-syntax`).
The HTML test runs before the OK test; in the non-OK branch every path
of the inner `try` (including its own `throw new Error(error.detail...)`)
lands in `catch (jsonError)`, which throws the status line. -/
def handleCheckSyntaxResponse (r : HttpResponse) : ApiOutcome :=
  if !ctHasJson r then
    if htmlBody r then .errPlain msg502Short
    else
      match r.bodyJson with
      | some j => .success j
      | none => .errPlain (msgUnexpectedFormat r.contentType)
  else if !r.ok then .errPlain (statusLine r)
  else
    match r.bodyJson with
    | some j => .success j
    | none => .errParse

/-- Response handling of `getProblematicOffers`
(`POST /api/get-problematic-offers`); same structure as `checkSyntax`. -/
def handleGetProblematicOffersResponse (r : HttpResponse) : ApiOutcome :=
  if !ctHasJson r then
    if htmlBody r then .errPlain msg502Short
    else
      match r.bodyJson with
      | some j => .success j
      | none => .errPlain (msgUnexpectedFormat r.contentType)
  else if !r.ok then .errPlain (statusLine r)
  else
    match r.bodyJson with
    | some j => .success j
    | none => .errParse

/-- Response handling of `checkFeedAsync` (`POST /api/check-feed-async`);
same structure as `checkSyntax` but with the longer 502 message. -/
def handleCheckFeedAsyncResponse (r : HttpResponse) : ApiOutcome :=
  if !ctHasJson r then
    if htmlBody r then .errPlain msg502Full
    else
      match r.bodyJson with
      | some j => .success j
      | none => .errPlain (msgUnexpectedFormat r.contentType)
  else if !r.ok then .errPlain (statusLine r)
  else
    match r.bodyJson with
    | some j => .success j
    | none => .errParse

/-- Response handling of `getJobStatus` (`GET /api/job/id`).  The 404
test precedes the inner `try`, so its error escapes; the remaining
non-OK paths are swallowed by `catch (jsonError)` into the status line. -/
def handleGetJobStatusResponse (r : HttpResponse) : ApiOutcome :=
  if !ctHasJson r then
    if htmlBody r then .errPlain msg502Full
    else
      match r.bodyJson with
      | some j => .success j
      | none => .errPlain (msgUnexpectedFormat r.contentType)
  else if !r.ok then
    if r.status == 404 then .errPlain msgJobNotFound
    else .errPlain (statusLine r)
  else
    match r.bodyJson with
    | some j => .success j
    | none => .errParse

/-- Response handling of `deleteJob` (`DELETE /api/job/id`).  A
non-JSON, non-HTML body returns silently; the non-OK JSON branch throws
the status line (the inner detail `throw` is caught by its own
`catch`); an OK JSON response returns without reading the body. -/
def handleDeleteJobResponse (r : HttpResponse) : ApiOutcome :=
  if !ctHasJson r then
    if htmlBody r then .errPlain msg502Short
    else .successUnit
  else if !r.ok then .errPlain (statusLine r)
  else .successUnit

/-- Response handling of `exportToExcel` (`POST /api/export-excel`).
There is no content-type or HTML inspection at all: a non-OK response is
parsed as JSON (an unparseable body lets the parser exception escape),
and any OK response resolves with the raw body as a blob. -/
def handleExportToExcelResponse (r : HttpResponse) : ApiOutcome :=
  if !r.ok then
    match r.bodyJson with
    | some e => .errPlain (jsOrDefault (e.getField "detail") msgExportDefault)
    | none => .errParse
  else .successBlob r.bodyText

/-! ### Progress-Stream Strategy (`checkFeedWithProgress`, SSE) -/

/-- Callback emitted while the stream stays open: `onStatusChange`,
`onProgress`, or nothing (events of unknown type fall through the
`switch` silently). -/
inductive StreamEmit where
  | statusMsg (s : String)
  | progressCb (loaded total percentage : Option Json)
  | nothingEmitted

/-- The payload attached as `.downloadError` by the stream's
`error` branch: a fresh object picking the five fields of the event. -/
structure StreamDownloadError where
  error_code : Option Json
  message : Option Json
  url : Option Json
  http_status : Option Json
  details : Option Json

/-- Reaction of the `onmessage` handler to one event.  Every
constructor except `keepOpen` closes the `EventSource` and settles the
promise. -/
inductive StreamAction where
  | keepOpen (emit : StreamEmit)
  | resolveWith (result : Option Json)
  | rejectDownloadEvt (msg : String) (payload : StreamDownloadError)
  | rejectMessage (msg : String)
  | rejectParseFailure

/-- Whether the handler closed the connection on this event. -/
def StreamAction.closesConnection : StreamAction → Bool
  | .keepOpen _ => false
  | _ => true

/-- The `onmessage` handler of `checkFeedWithProgress` on one event.
`raw` is the result of `JSON.parse(event.data)` (`none` when parsing
throws, which the surrounding `try` turns into a terminal rejection). -/
def handleSseMessage (raw : Option Json) : StreamAction :=
  match raw with
  | none => .rejectParseFailure
  | some data =>
    if fieldEqStr (data.getField "type") "start" then
      .keepOpen (.statusMsg (jsOrDefault (data.getField "message") "Начинаем загрузку..."))
    else if fieldEqStr (data.getField "type") "downloading" then
      .keepOpen (.statusMsg (jsOrDefault (data.getField "message") "Загрузка фида..."))
    else if fieldEqStr (data.getField "type") "progress" then
      .keepOpen (.progressCb (data.getField "loaded") (data.getField "total") (data.getField "percentage"))
    else if fieldEqStr (data.getField "type") "processing" then
      .keepOpen (.statusMsg (jsOrDefault (data.getField "message") "Обработка данных..."))
    else if fieldEqStr (data.getField "type") "complete" then
      .resolveWith (data.getField "result")
    else if fieldEqStr (data.getField "type") "error" then
      if fieldEqStr (data.getField "error_type") "download_error" then
        .rejectDownloadEvt (jsErrorMsg (data.getField "message"))
          ⟨data.getField "error_code", data.getField "message",
            data.getField "url", data.getField "http_status", data.getField "details"⟩
      else
        .rejectMessage (jsOrDefault (data.getField "message") msgGenericCheck)
    else .keepOpen .nothingEmitted

/-- Terminal outcome of a whole event sequence. -/
inductive StreamOutcome where
  | stillOpen
  | resolved (result : Option Json)
  | rejectedDownload (msg : String) (payload : StreamDownloadError)
  | rejectedMsg (msg : String)
  | rejectedParse

/-- Run the handler over a sequence of parsed events; the first
terminal action closes the source, so later events are never seen. -/
def runStream : List (Option Json) → StreamOutcome
  | [] => .stillOpen
  | e :: rest =>
    match handleSseMessage e with
    | .keepOpen _ => runStream rest
    | .resolveWith r => .resolved r
    | .rejectDownloadEvt m p => .rejectedDownload m p
    | .rejectMessage m => .rejectedMsg m
    | .rejectParseFailure => .rejectedParse

/-! ### Async Job Poller (`checkFeedWithPolling`) -/

/-- Rejection produced by the `failed` branch of the poll loop. -/
inductive FailAction where
  | rejectDownload (msg : String) (detail : Json)
  | rejectPlain (msg : String)

/-- The `failed` branch on `status.error`: a truthy object is
classified by its `error_type` (a download shape keeps the whole
embedded object as `.downloadError`), any other object falls back to
its `message` or its serialization; a string or absent error is wrapped
directly, with a generic message only when it is falsy. -/
def classifyFailedJobError (err : Option Json) : FailAction :=
  match err with
  | some e =>
    if jsTruthy e && jsTypeofObject e then
      if fieldEqStr (e.getField "error_type") "download_error" then
        .rejectDownload (jsErrorMsg (e.getField "message")) e
      else
        .rejectPlain (jsOrDefault (e.getField "message") e.stringify)
    else .rejectPlain (jsOrDefault (some e) msgJobFailedDefault)
  | none => .rejectPlain msgJobFailedDefault

/-- Reaction of one poll tick to the fetched job status.  On a
terminal status the interval timer is cleared; on
`completed`/`completed_with_errors` exactly one follow-up request is
issued, with `include_result=true`. -/
inductive PollAction where
  | continuePolling (progress message : Option Json)
  | fetchFinalResult (includeResult : Bool)
  | rejectFailed (act : FailAction)

/-- Whether this tick cleared the poll timer. -/
def PollAction.stopsTimer : PollAction → Bool
  | .continuePolling _ _ => false
  | _ => true

/-- One tick of the poll loop of `checkFeedWithPolling`, given the
parsed job status. -/
def pollTick (status : Json) : PollAction :=
  if fieldEqStr (status.getField "status") "completed" ||
      fieldEqStr (status.getField "status") "completed_with_errors" then
    .fetchFinalResult true
  else if fieldEqStr (status.getField "status") "failed" then
    .rejectFailed (classifyFailedJobError (status.getField "error"))
  else
    .continuePolling (status.getField "progress") (status.getField "message")

/-- Settlement of the polling promise after the follow-up
`include_result=true` request. -/
inductive PollFinalOutcome where
  | resolved (result : Json)
  | rejectedMsg (msg : String)
  | rejectedParseExc

/-- Handling of the response of the follow-up request (the body of the
inner `try` after `status ∈ {completed, completed_with_errors}`): the
HTML test and a salvage `JSON.parse` run only for non-JSON content
types; the OK test runs only for JSON content types, before the body is
read, and `resolve(finalData.result)` fires only for a truthy `result`
field. -/
def handleFinalResponse (r : HttpResponse) : PollFinalOutcome :=
  if !ctHasJson r then
    if htmlBody r then .rejectedMsg msg502Short
    else
      match r.bodyJson with
      | some finalData =>
        match finalData.getField "result" with
        | some res => if jsTruthy res then .resolved res else .rejectedMsg msgResultNotFound
        | none => .rejectedMsg msgResultNotFound
      | none => .rejectedMsg (msgUnexpectedFormat r.contentType)
  else if !r.ok then .rejectedMsg msgCannotGetResult
  else
    match r.bodyJson with
    | some finalData =>
      match finalData.getField "result" with
      | some res => if jsTruthy res then .resolved res else .rejectedMsg msgResultNotFound
      | none => .rejectedMsg msgResultNotFound
    | none => .rejectedParseExc

/-! ### Mode Selector (the strategy choice of the submit handler) -/

/-- Feed type of a `CheckRequest`. -/
inductive FeedType where
  | xml
  | delta
deriving DecidableEq

/-- Source of a `CheckRequest`: a URL or an already-selected file with
its byte size.  (The submit handler validates before selecting, so a
file source always has a file.) -/
inductive FeedSource where
  | url (u : String)
  | file (name : String) (size : Nat)

/-- A validated check request at the moment the strategy is chosen. -/
structure CheckRequest where
  siteId : Nat
  source : FeedSource
  feedType : FeedType
  delimiter : String
  asyncRequested : Bool

/-- The four transports a submission can take. -/
inductive Strategy where
  | asyncJobPoller
  | directSubmitWithProgress
  | progressStream
  | directSubmitNoProgress
deriving DecidableEq

/-- `useAsyncMode || (sourceType === "file" && feedFile && feedFile.size > 50 * 1024 * 1024)`. -/
def shouldUseAsync (r : CheckRequest) : Bool :=
  r.asyncRequested ||
    (match r.source with
     | .file _ size => decide (50 * 1024 * 1024 < size)
     | .url _ => false)

/-- The strategy dispatch of the submit handler: async polling when
`shouldUseAsync`, the XHR upload for a (small) file, `checkFeed`
without progress for a delta URL, and the SSE stream otherwise. -/
def selectStrategy (r : CheckRequest) : Strategy :=
  if shouldUseAsync r then .asyncJobPoller
  else
    match r.source with
    | .file _ _ => .directSubmitWithProgress
    | .url _ =>
      if r.feedType = .delta then .directSubmitNoProgress
      else .progressStream

/-- Whether the source is a file strictly larger than 50 MiB. -/
def sourceIsLargeFile : FeedSource → Bool
  | .file _ size => decide (50 * 1024 * 1024 < size)
  | .url _ => false

/-- Whether the source is a file. -/
def sourceIsFile : FeedSource → Bool
  | .file _ _ => true
  | .url _ => false

/-- Modelled from the spec: the Mode Selector's first-match decision
order as written in the specification (async flag or large file; then
file; then URL with xml; otherwise URL with delta). -/
def modeSelectorSpec (r : CheckRequest) : Strategy :=
  if r.asyncRequested = true ∨ sourceIsLargeFile r.source = true then .asyncJobPoller
  else if sourceIsFile r.source = true then .directSubmitWithProgress
  else if r.feedType = .xml then .progressStream
  else .directSubmitNoProgress

/-! ### Upload-progress estimator (`uploadWithProgress`) -/

/-- A JavaScript number: either a finite value or one of the
non-finite values.  The estimator's guards keep every produced value
finite; the wrapper makes that observable. -/
inductive JSNumber where
  | num (q : ℚ)
  | posInf
  | negInf
  | nan
deriving DecidableEq

/-- `isFinite(x)`. -/
def JSNumber.isFinite : JSNumber → Bool
  | .num _ => true
  | _ => false

/-- A native `xhr.upload` progress event with `lengthComputable`,
together with the wall-clock time `Date.now()` at which it fires
(milliseconds, exact rationals standing for JS numbers). -/
structure NativeProgressEvent where
  time : ℚ
  loaded : ℚ
  total : ℚ

/-- The closure state of the estimator: `startTime`/`startLoaded`,
re-seeded to the current event after every tick. -/
structure EstimatorState where
  startTime : ℚ
  startLoaded : ℚ

/-- The object passed to `setUploadProgress` on one tick. -/
structure UploadProgressReport where
  loaded : ℚ
  total : ℚ
  percentage : ℤ
  speed : JSNumber
  timeRemaining : JSNumber

/-- `Math.round` (round half toward +∞). -/
def jsRound (q : ℚ) : ℤ := ⌊q + 1 / 2⌋

/-- One tick of the progress listener: speed from the bytes and time
since the previous event, remaining time from the remaining bytes at
that speed, both guarded against a zero divisor exactly as in the
listener; afterwards the state is re-seeded to this event. -/
def progressStep (s : EstimatorState) (e : NativeProgressEvent) :
    EstimatorState × UploadProgressReport :=
  let timeElapsed : ℚ := (e.time - s.startTime) / 1000
  let bytesUploaded : ℚ := e.loaded - s.startLoaded
  let speed : ℚ := if 0 < timeElapsed then bytesUploaded / timeElapsed else 0
  let remainingBytes : ℚ := e.total - e.loaded
  let timeRemaining : ℚ := if 0 < speed then remainingBytes / speed else 0
  (⟨e.time, e.loaded⟩,
    ⟨e.loaded, e.total, jsRound (e.loaded / e.total * 100), .num speed, .num timeRemaining⟩)

/-- The estimator over a whole event sequence, starting from the
upload start time `t0` with zero bytes accounted. -/
def runEstimator (t0 : ℚ) : List NativeProgressEvent → List UploadProgressReport :=
  go ⟨t0, 0⟩
where
  go (s : EstimatorState) : List NativeProgressEvent → List UploadProgressReport
    | [] => []
    | e :: rest =>
      let (s2, rep) := progressStep s e
      rep :: go s2 rest

/-! ### Result Handoff (the sessionStorage handoff of the submit handler) -/

/-- Outcome of a `sessionStorage.setItem` pair: success, a failure
recognised by the quota test (`name === 'QuotaExceededError'` or a
message containing `quota`), or any other failure. -/
inductive WriteOutcome where
  | ok
  | quotaExceeded
  | failedOther
deriving DecidableEq

/-- Behaviour of the store on the two write attempts of one handoff. -/
structure StoreBehavior where
  firstWrite : WriteOutcome
  reducedWrite : WriteOutcome

/-- Terminal behaviour of the handoff: navigation with the stored
value (under the fixed keys `feedCheckResult`/`feedSource`) and the
optional navigation state, an abort with the user-facing message, or a
re-thrown storage error. -/
inductive HandoffOutcome where
  | navigated (stored : Json) (storedSource : Json) (navState : Option Json)
  | abortedTooLarge (msg : String)
  | propagated

def msgTooLarge : String :=
  "Результат проверки слишком большой для сохранения. Пожалуйста, используйте экспорт результатов сразу после проверки."

/-- Optional object entry: a field of value `undefined` disappears on
`JSON.stringify`, so it is dropped here. -/
def optEntry (k : String) (v : Option Json) : List (String × Json) :=
  match v with
  | some x => [(k, x)]
  | none => []

/-- Insert-or-overwrite of one field, as JavaScript object spread does
for duplicate keys. -/
def upsertField : List (String × Json) → String → Json → List (String × Json)
  | [], k, v => [(k, v)]
  | (k2, v2) :: rest, k, v =>
    if k2 == k then (k2, v) :: rest else (k2, v2) :: upsertField rest k v

/-- Left-to-right spread of `extra` over `base`. -/
def spreadFields (base extra : List (String × Json)) : List (String × Json) :=
  extra.foldl (fun acc kv => upsertField acc kv.1 kv.2) base

/-- The `minimalResult` object built when the first write exceeds the
quota: for an XML feed only `syntax`, a four-field `mandatory` summary
and `categories` survive; a delta result is spread whole over the
`site_id`/`feed_type` header. -/
def reduceResult (ft : FeedType) (result : Json) : Json :=
  let header :=
    optEntry "site_id" (result.getField "site_id") ++
      [("feed_type",
        (match result.getField "feed_type" with
         | some v => if jsTruthy v then v else .str (match ft with | .xml => "xml" | .delta => "delta")
         | none => .str (match ft with | .xml => "xml" | .delta => "delta")))]
  match ft with
  | .xml =>
    .obj (header ++
      optEntry "syntax" (result.getField "syntax") ++
      (match result.getField "mandatory" with
       | some m =>
         if jsTruthy m then
           [("mandatory", .obj (
             optEntry "total_offers" (m.getField "total_offers") ++
             optEntry "valid_offers" (m.getField "valid_offers") ++
             optEntry "problems_count" (m.getField "problems_count") ++
             optEntry "problems_summary" (m.getField "problems_summary")))]
         else []
       | none => []) ++
      optEntry "categories" (result.getField "categories"))
  | .delta =>
    .obj (spreadFields header
      (match result with
       | .obj fields => fields
       | _ => []))

/-- The result handoff after a strategy resolves: write the full
result and its source context; on a quota failure retry with the
reduced object and pass the full result as navigation state; abort
with the user-facing message when even that fails; re-throw
non-quota storage errors. -/
def resultHandoff (ft : FeedType) (result : Json) (sourceCtx : Json)
    (st : StoreBehavior) : HandoffOutcome :=
  match st.firstWrite with
  | .ok => .navigated result sourceCtx none
  | .quotaExceeded =>
    match st.reducedWrite with
    | .ok =>
      .navigated (reduceResult ft result) sourceCtx
        (some (.obj [("fullResult", result), ("feedSource", sourceCtx)]))
    | _ => .abortedTooLarge msgTooLarge
  | .failedOther => .propagated

/-! ### Helper lemmas -/

/-- A successful strict string comparison pins the compared value. -/
theorem fieldEqStr_some {v : Option Json} {s : String} (h : fieldEqStr v s = true) :
    v = some (.str s) := by
  cases v with
  | none => simp [fieldEqStr] at h
  | some j => cases j <;> simp_all [fieldEqStr]

/-! ### Concrete inputs used by witnesses and counterexamples -/

/-- The result object of the worked stream example. -/
def sampleStreamResult : Json := .obj [("site_id", .num 12345)]

/-- The worked event sequence of the spec example:
start, downloading, one progress event, complete. -/
def sampleStreamEvents : List (Option Json) :=
  [some (.obj [("type", .str "start")]),
   some (.obj [("type", .str "downloading")]),
   some (.obj [("type", .str "progress"), ("loaded", .num 500), ("total", .num 1000),
     ("percentage", .num 50)]),
   some (.obj [("type", .str "complete"), ("result", sampleStreamResult)])]

/-- A download-shaped stream error event with HTTP status 404. -/
def sampleDownloadErrorEvent : Json :=
  .obj [("type", .str "error"), ("error_type", .str "download_error"),
    ("error_code", .str "HTTP_ERROR"), ("message", .str "Файл не найден"),
    ("url", .str "http://x/feed.xml"), ("http_status", .num 404)]

/-- A non-download stream error event carrying its own message. -/
def cexStreamErrorEvent : Json :=
  .obj [("type", .str "error"), ("error_type", .str "validation"), ("message", .str "boom")]

/-- A non-OK JSON follow-up response that does carry a truthy `result`. -/
def cexFinalResp : HttpResponse :=
  ⟨false, 500, "Internal Server Error", "application/json",
    "\x7b\"result\":\x7b\"site_id\":1\x7d\x7d",
    some (.obj [("result", .obj [("site_id", .num 1)])])⟩

/-- An OK follow-up response with a truthy `result`. -/
def okFinalResp : HttpResponse :=
  ⟨true, 200, "OK", "application/json",
    "\x7b\"result\":\x7b\"site_id\":1\x7d\x7d",
    some (.obj [("result", .obj [("site_id", .num 1)])])⟩

/-- An OK HTML response, as a reverse proxy produces on a 502. -/
def cexHtmlOkResp : HttpResponse :=
  ⟨true, 200, "OK", "text/html", "<html>502 Bad Gateway</html>", none⟩

/-- A non-OK HTML error page. -/
def cexHtmlNotOkResp : HttpResponse :=
  ⟨false, 502, "Bad Gateway", "text/html", "<!DOCTYPE html><html>502</html>", none⟩

/-- A non-OK JSON deletion response. -/
def cexDeleteResp : HttpResponse :=
  ⟨false, 500, "Internal Server Error", "application/json",
    "\x7b\"detail\":\"x\"\x7d", some (.obj [("detail", .str "x")])⟩

/-- A failed job status whose `error` is a plain string. -/
def cexFailedStatus : Json :=
  .obj [("status", .str "failed"), ("error", .str "boom")]

/-- A failed job status with a download-shaped embedded error. -/
def sampleFailedDownloadStatus : Json :=
  .obj [("status", .str "failed"),
    ("error", .obj [("error_type", .str "download_error"), ("error_code", .str "HTTP_ERROR"),
      ("message", .str "Файл не найден"), ("http_status", .num 404)])]

/-- An estimator state and event firing at the same millisecond. -/
def cexZeroElapsedState : EstimatorState := ⟨1000, 0⟩

/-- The event observed with zero elapsed time. -/
def cexZeroElapsedEvent : NativeProgressEvent := ⟨1000, 100, 1000⟩

/-! ### C1 -/

/-- Claim C1: for every `CheckRequest` the Mode Selector picks exactly
one strategy by first-match order and never fails: async requested or a
file over 50 MiB selects the Async Job Poller; a file of at most
50 MiB selects the Direct Submit Strategy with upload progress; a URL
with an xml feed selects the Progress-Stream Strategy; a URL with a
delta feed selects the Direct Submit Strategy without progress.  The
code's dispatch agrees with the spec's decision list on every request
(totality and uniqueness hold by construction: `selectStrategy` is a
total function into `Strategy`). -/
theorem modeSelector_first_match (r : CheckRequest) :
    selectStrategy r = modeSelectorSpec r := by
  rcases r with ⟨id, src, ft, d, ar⟩
  rcases src with u | ⟨n, sz⟩
  · cases ft <;> cases ar <;>
      simp [selectStrategy, modeSelectorSpec, shouldUseAsync, sourceIsLargeFile, sourceIsFile]
  · cases ft <;> cases ar <;> by_cases h : 50 * 1024 * 1024 < sz <;>
      simp [selectStrategy, modeSelectorSpec, shouldUseAsync, sourceIsLargeFile, sourceIsFile, h]

/-! ### C2 -/

/-- Claim C2 (amended): on every poll that observes status `completed`
or `completed_with_errors` the poll timer is stopped and exactly one
additional request with `include_result=true` is issued.  For the
response of that request: a non-JSON content type with an HTML body
rejects with the gateway-failure message; a JSON content type that is
not OK rejects with a "could not get result" error regardless of the
body; a body that parses as JSON with a truthy `result` field resolves
with that field (for a non-JSON content type even on a non-OK status);
a parsed body without a truthy `result` field rejects with the "result
not found" error; an unparseable body rejects with the
unexpected-format error (non-JSON content type) or with the propagated
parser exception (JSON content type). -/
theorem pollCompleted_result_fetch :
    (∀ status : Json,
      fieldEqStr (status.getField "status") "completed" = true ∨
        fieldEqStr (status.getField "status") "completed_with_errors" = true →
      pollTick status = .fetchFinalResult true ∧ (pollTick status).stopsTimer = true) ∧
    (∀ r : HttpResponse,
      (ctHasJson r = false → htmlBody r = true →
        handleFinalResponse r = .rejectedMsg msg502Short) ∧
      (ctHasJson r = true → r.ok = false →
        handleFinalResponse r = .rejectedMsg msgCannotGetResult) ∧
      (∀ f res, r.bodyJson = some f → f.getField "result" = some res → jsTruthy res = true →
        (ctHasJson r = false → htmlBody r = false → handleFinalResponse r = .resolved res) ∧
        (ctHasJson r = true → r.ok = true → handleFinalResponse r = .resolved res)) ∧
      (∀ f, r.bodyJson = some f → optTruthy (f.getField "result") = false →
        (ctHasJson r = false → htmlBody r = false →
          handleFinalResponse r = .rejectedMsg msgResultNotFound) ∧
        (ctHasJson r = true → r.ok = true →
          handleFinalResponse r = .rejectedMsg msgResultNotFound)) ∧
      (r.bodyJson = none →
        (ctHasJson r = false → htmlBody r = false →
          handleFinalResponse r = .rejectedMsg (msgUnexpectedFormat r.contentType)) ∧
        (ctHasJson r = true → r.ok = true → handleFinalResponse r = .rejectedParseExc))) := by
  constructor
  · intro status h
    rcases h with h | h <;> simp [pollTick, h, PollAction.stopsTimer]
  · intro r
    refine ⟨?_, ?_, ?_, ?_, ?_⟩
    · intro hct hhtml; simp [handleFinalResponse, hct, hhtml]
    · intro hct hok; simp [handleFinalResponse, hct, hok]
    · intro f res hf hres htr
      constructor
      · intro hct hhtml; simp [handleFinalResponse, hct, hhtml, hf, hres, htr]
      · intro hct hok; simp [handleFinalResponse, hct, hok, hf, hres, htr]
    · intro f hf hres
      constructor
      · intro hct hhtml
        cases hr : f.getField "result" with
        | none => simp [handleFinalResponse, hct, hhtml, hf, hr]
        | some res =>
          rw [hr] at hres
          simp only [optTruthy] at hres
          simp [handleFinalResponse, hct, hhtml, hf, hr, hres]
      · intro hct hok
        cases hr : f.getField "result" with
        | none => simp [handleFinalResponse, hct, hok, hf, hr]
        | some res =>
          rw [hr] at hres
          simp only [optTruthy] at hres
          simp [handleFinalResponse, hct, hok, hf, hr, hres]
    · intro hf
      constructor
      · intro hct hhtml; simp [handleFinalResponse, hct, hhtml, hf]
      · intro hct hok; simp [handleFinalResponse, hct, hok, hf]

/-- Witness for C2: a completed status stops the timer and fetches the
result, and an OK JSON response carrying a result resolves with it. -/
theorem pollCompleted_result_fetch_witness :
    pollTick (.obj [("status", .str "completed")]) = .fetchFinalResult true ∧
    handleFinalResponse okFinalResp = .resolved (.obj [("site_id", .num 1)]) :=
  ⟨(pollCompleted_result_fetch.1 (.obj [("status", .str "completed")]) (Or.inl rfl)).1,
   ((pollCompleted_result_fetch.2 okFinalResp).2.2.1 _ _ rfl rfl rfl).2 rfl rfl⟩

/-- Counterexample for C2 as stated: a non-OK response with JSON
content type whose body does contain a truthy `result` field is
neither an HTML body nor a JSON-without-result body, so the claim
demands resolution with the `result`; the code instead rejects with
the "could not get result" error. -/
theorem pollCompleted_notOk_counterexample :
    ctHasJson cexFinalResp = true ∧ htmlBody cexFinalResp = false ∧
    cexFinalResp.bodyJson = some (.obj [("result", .obj [("site_id", .num 1)])]) ∧
    jsTruthy (.obj [("site_id", .num 1)]) = true ∧
    handleFinalResponse cexFinalResp = .rejectedMsg msgCannotGetResult ∧
    ¬ handleFinalResponse cexFinalResp = .resolved (.obj [("site_id", .num 1)]) :=
  ⟨rfl, rfl, rfl, rfl, rfl, fun h => PollFinalOutcome.noConfusion h⟩

/-! ### C3 -/

/-- Rewriting form of `fieldEqStr` once the compared value is known. -/
theorem fieldEqStr_of_eq {v : Option Json} {s t : String} (h : v = some (.str t)) :
    fieldEqStr v s = (t == s) := by rw [h]; rfl

/-- Claim C3 (amended): every event of type `error` closes the
connection and rejects the promise; an event of the download shape
(`error_type` equal to `download_error`) rejects with a download-kind
error whose payload carries the event's `error_code`, `message`,
`url`, `http_status` and `details` verbatim; otherwise the rejection
carries the event's own `message` when it is truthy and the fixed
generic message only when it is not. -/
theorem streamError_classification (data : Json)
    (h : fieldEqStr (data.getField "type") "error" = true) :
    (handleSseMessage (some data)).closesConnection = true ∧
    (fieldEqStr (data.getField "error_type") "download_error" = true →
      handleSseMessage (some data) =
        .rejectDownloadEvt (jsErrorMsg (data.getField "message"))
          ⟨data.getField "error_code", data.getField "message", data.getField "url",
            data.getField "http_status", data.getField "details"⟩) ∧
    (fieldEqStr (data.getField "error_type") "download_error" = false →
      handleSseMessage (some data) =
        .rejectMessage (jsOrDefault (data.getField "message") msgGenericCheck)) := by
  have hv := fieldEqStr_some h
  have hred : handleSseMessage (some data) =
      (if fieldEqStr (data.getField "error_type") "download_error" = true then
        StreamAction.rejectDownloadEvt (jsErrorMsg (data.getField "message"))
          ⟨data.getField "error_code", data.getField "message", data.getField "url",
            data.getField "http_status", data.getField "details"⟩
      else StreamAction.rejectMessage (jsOrDefault (data.getField "message") msgGenericCheck)) := by
    simp only [handleSseMessage, fieldEqStr_of_eq hv]
    simp
  refine ⟨?_, ?_, ?_⟩
  · rw [hred]; split <;> rfl
  · intro hd; rw [hred, if_pos hd]
  · intro hd; rw [hred]; simp [hd]

/-- Witness for C3: the spec's example event (`HTTP_ERROR`, status
404) rejects with a download payload carrying code `HTTP_ERROR` and
`http_status` 404 verbatim. -/
theorem streamError_classification_witness :
    handleSseMessage (some sampleDownloadErrorEvent) =
      .rejectDownloadEvt "Файл не найден"
        ⟨some (.str "HTTP_ERROR"), some (.str "Файл не найден"),
          some (.str "http://x/feed.xml"), some (.num 404), none⟩ :=
  (streamError_classification sampleDownloadErrorEvent rfl).2.1 rfl

/-- Counterexample for C3 as stated: a non-download `error` event that
carries `message` `"boom"` rejects with exactly `"boom"` — the event's
own message, not the generic message the claim announces for the
non-download case. -/
theorem streamError_generic_counterexample :
    handleSseMessage (some cexStreamErrorEvent) = .rejectMessage "boom" ∧
    "boom" ≠ msgGenericCheck :=
  ⟨rfl, by decide⟩

/-! ### C4 -/

/-- Claim C4 (amended): for a response whose content type is not JSON
and whose body starts with an HTML doctype or `<html>` tag, six of the
seven endpoints raise the Connection-kind "server unavailable"
error — `checkFeed` (on its OK path; its non-OK path uses the
case-folded HTML test and a different authorization-hinting message),
`checkSyntax`, `getProblematicOffers`, `checkFeedAsync`,
`getJobStatus` and `deleteJob` — but the exact message text varies by
endpoint (with and without the trailing "check the backend logs"
sentence), and `exportToExcel` performs no HTML detection at all. -/
theorem htmlResponse_connection_classification (r : HttpResponse)
    (hct : ctHasJson r = false) (hhtml : htmlBody r = true) :
    (r.ok = true → handleCheckFeedResponse r = .errPlain msg502Full) ∧
    (r.ok = false → htmlBodyLower r = true → handleCheckFeedResponse r = .errPlain msgHtmlPage) ∧
    handleCheckSyntaxResponse r = .errPlain msg502Short ∧
    handleGetProblematicOffersResponse r = .errPlain msg502Short ∧
    handleCheckFeedAsyncResponse r = .errPlain msg502Full ∧
    handleGetJobStatusResponse r = .errPlain msg502Full ∧
    handleDeleteJobResponse r = .errPlain msg502Short := by
  refine ⟨?_, ?_, ?_, ?_, ?_, ?_, ?_⟩
  · intro hok; simp [handleCheckFeedResponse, hct, hhtml, hok]
  · intro hok hlow; simp [handleCheckFeedResponse, hct, hlow, hok]
  · simp [handleCheckSyntaxResponse, hct, hhtml]
  · simp [handleGetProblematicOffersResponse, hct, hhtml]
  · simp [handleCheckFeedAsyncResponse, hct, hhtml]
  · simp [handleGetJobStatusResponse, hct, hhtml]
  · simp [handleDeleteJobResponse, hct, hhtml]

/-- Witness for C4: on a concrete OK HTML page, `checkSyntax` raises
the short 502 message, `checkFeed` and `getJobStatus` the long one,
and on a concrete non-OK doctype page `checkFeed` raises the
authorization-hinting message. -/
theorem htmlResponse_connection_witness :
    handleCheckSyntaxResponse cexHtmlOkResp = .errPlain msg502Short ∧
    handleCheckFeedResponse cexHtmlOkResp = .errPlain msg502Full ∧
    handleGetJobStatusResponse cexHtmlOkResp = .errPlain msg502Full ∧
    handleCheckFeedResponse cexHtmlNotOkResp = .errPlain msgHtmlPage :=
  ⟨(htmlResponse_connection_classification cexHtmlOkResp rfl rfl).2.2.1,
   (htmlResponse_connection_classification cexHtmlOkResp rfl rfl).1 rfl,
   (htmlResponse_connection_classification cexHtmlOkResp rfl rfl).2.2.2.2.2.1,
   (htmlResponse_connection_classification cexHtmlNotOkResp rfl rfl).2.1 rfl rfl⟩

/-- Counterexample for C4 as stated: `exportToExcel` is one of the
seven endpoints, yet an OK HTML response resolves successfully as a
blob instead of raising a Connection-kind error; moreover the
"fixed message" differs between endpoints (`msg502Full` vs
`msg502Short`). -/
theorem exportExcel_html_counterexample :
    ctHasJson cexHtmlOkResp = false ∧ htmlBody cexHtmlOkResp = true ∧
    handleExportToExcelResponse cexHtmlOkResp = .successBlob "<html>502 Bad Gateway</html>" ∧
    msg502Full ≠ msg502Short :=
  ⟨rfl, rfl, rfl, by decide⟩

/-! ### C5 -/

/-- Claim C5 (amended): on every native progress event with positive
elapsed time the instantaneous speed equals the bytes transferred
since the *previous* event divided by the wall time elapsed since that
event (the state is re-seeded to the current event, so the next tick
again measures against the previous event, not the upload start), and
the estimated time remaining equals `(total - loaded) / speed` whenever
the speed is positive; a speed of 0 yields a reported time remaining
of 0 — a finite value, not the non-finite "unknown" the original claim
announces. -/
theorem uploadProgress_speed_formula (s : EstimatorState) (e : NativeProgressEvent)
    (h : 0 < (e.time - s.startTime) / 1000) :
    (progressStep s e).2.speed =
      .num ((e.loaded - s.startLoaded) / ((e.time - s.startTime) / 1000)) ∧
    (progressStep s e).1 = ⟨e.time, e.loaded⟩ ∧
    (∀ v : ℚ, (progressStep s e).2.speed = .num v → 0 < v →
      (progressStep s e).2.timeRemaining = .num ((e.total - e.loaded) / v)) ∧
    ((progressStep s e).2.speed = .num 0 → (progressStep s e).2.timeRemaining = .num 0) ∧
    (∀ e2 : NativeProgressEvent, 0 < (e2.time - e.time) / 1000 →
      (progressStep (progressStep s e).1 e2).2.speed =
        .num ((e2.loaded - e.loaded) / ((e2.time - e.time) / 1000))) := by
  refine ⟨?_, rfl, ?_, ?_, ?_⟩
  · simp [progressStep, h]
  · intro v hv hvpos
    simp only [progressStep, if_pos h, JSNumber.num.injEq] at hv
    simp only [progressStep, if_pos h]
    rw [hv, if_pos hvpos]
  · intro h0
    simp only [progressStep, if_pos h, JSNumber.num.injEq] at h0
    simp only [progressStep, if_pos h]
    rw [h0]
    simp
  · intro e2 h2
    simp [progressStep, h2]

/-- Witness for C5: one second into the upload, 100 of 1000 bytes
transferred gives the speed prescribed by the formula. -/
theorem uploadProgress_speed_formula_witness :
    (0 : ℚ) < ((1000 : ℚ) - 0) / 1000 ∧
    (progressStep ⟨0, 0⟩ ⟨1000, 100, 1000⟩).2.speed =
      .num (((100 : ℚ) - 0) / (((1000 : ℚ) - 0) / 1000)) :=
  ⟨by norm_num, (uploadProgress_speed_formula ⟨0, 0⟩ ⟨1000, 100, 1000⟩ (by norm_num)).1⟩

/-- Counterexample for C5 as stated: an event observed with zero
elapsed time yields speed 0, and the reported time remaining is the
finite number 0 (rendered as zero seconds), not a non-finite
"unknown" value. -/
theorem uploadProgress_zero_speed_counterexample :
    (progressStep cexZeroElapsedState cexZeroElapsedEvent).2.speed = .num 0 ∧
    (progressStep cexZeroElapsedState cexZeroElapsedEvent).2.timeRemaining = .num 0 ∧
    ((progressStep cexZeroElapsedState cexZeroElapsedEvent).2.timeRemaining).isFinite = true := by
  refine ⟨?_, ?_, ?_⟩ <;>
    simp [progressStep, cexZeroElapsedState, cexZeroElapsedEvent, JSNumber.isFinite]

/-! ### C6 -/

/-- Claim C6: when the first persistent write fails with a quota
error, the handoff writes the reduced summary object under the same
fixed keys and passes the full original result through the one-shot
navigation state; when the reduced write also fails it aborts with the
user-facing "result too large" message and does not navigate (and in
particular shows no partial view and drops nothing silently). -/
theorem resultHandoff_quota_fallback (ft : FeedType) (result sourceCtx : Json)
    (st : StoreBehavior) (h : st.firstWrite = .quotaExceeded) :
    (st.reducedWrite = .ok →
      resultHandoff ft result sourceCtx st =
        .navigated (reduceResult ft result) sourceCtx
          (some (.obj [("fullResult", result), ("feedSource", sourceCtx)]))) ∧
    (st.reducedWrite ≠ .ok →
      resultHandoff ft result sourceCtx st = .abortedTooLarge msgTooLarge) := by
  obtain ⟨fw, rw2⟩ := st
  dsimp only at h
  subst h
  constructor
  · intro hr
    dsimp only at hr
    subst hr
    rfl
  · intro hr
    cases rw2 with
    | ok => exact absurd rfl hr
    | quotaExceeded => rfl
    | failedOther => rfl

/-- Witness for C6: with a quota failure on the first write and a
successful reduced write, a concrete result navigates with the
reduced object in the store and the full result in the navigation
state; with a failing reduced write the same result aborts with the
"too large" message. -/
theorem resultHandoff_quota_fallback_witness :
    resultHandoff .xml (.obj [("site_id", .num 1)]) (.obj [("siteId", .num 1)])
        ⟨.quotaExceeded, .ok⟩ =
      .navigated (reduceResult .xml (.obj [("site_id", .num 1)])) (.obj [("siteId", .num 1)])
        (some (.obj [("fullResult", .obj [("site_id", .num 1)]),
          ("feedSource", .obj [("siteId", .num 1)])])) ∧
    resultHandoff .xml (.obj [("site_id", .num 1)]) (.obj [("siteId", .num 1)])
        ⟨.quotaExceeded, .failedOther⟩ = .abortedTooLarge msgTooLarge :=
  ⟨(resultHandoff_quota_fallback .xml (.obj [("site_id", .num 1)]) (.obj [("siteId", .num 1)])
      ⟨.quotaExceeded, .ok⟩ rfl).1 rfl,
   (resultHandoff_quota_fallback .xml (.obj [("site_id", .num 1)]) (.obj [("siteId", .num 1)])
      ⟨.quotaExceeded, .failedOther⟩ rfl).2 (by simp)⟩

/-! ### C7 -/

/-- Claim C7: every event of type `complete` closes the connection and
resolves the promise with exactly the `result` field embedded in that
event; in particular the worked sequence start, downloading, progress,
complete resolves with the result carried by the complete event. -/
theorem streamComplete_resolves :
    (∀ data : Json, fieldEqStr (data.getField "type") "complete" = true →
      handleSseMessage (some data) = .resolveWith (data.getField "result") ∧
      (handleSseMessage (some data)).closesConnection = true) ∧
    runStream sampleStreamEvents = .resolved (some sampleStreamResult) := by
  constructor
  · intro data h
    have hv := fieldEqStr_some h
    have key : handleSseMessage (some data) = .resolveWith (data.getField "result") := by
      simp only [handleSseMessage, fieldEqStr_of_eq hv]
      simp
    exact ⟨key, by rw [key]; rfl⟩
  · rfl

/-- Witness for C7: a concrete `complete` event resolves with its
embedded result object. -/
theorem streamComplete_resolves_witness :
    handleSseMessage (some (.obj [("type", .str "complete"), ("result", sampleStreamResult)])) =
      .resolveWith (some sampleStreamResult) :=
  (streamComplete_resolves.1 (.obj [("type", .str "complete"), ("result", sampleStreamResult)])
    rfl).1

/-! ### C8 -/

/-- Claim C8 (amended): on every poll that observes status `failed`
the timer is stopped and the promise rejects.  A truthy structured
`error` object is classified by its `error_type` and `message`: a
download shape rejects with a download-kind error preserving the whole
embedded object verbatim — exactly as the direct `checkFeed` download
classification preserves its `detail` object — and any other object
rejects with its `message` or, failing that, its serialization.  A
plain nonempty string `error` rejects with that string verbatim; only
an absent (or falsy) `error` produces the generic message. -/
theorem pollFailed_classification (status : Json)
    (h : fieldEqStr (status.getField "status") "failed" = true) :
    pollTick status = .rejectFailed (classifyFailedJobError (status.getField "error")) ∧
    (pollTick status).stopsTimer = true ∧
    (∀ e, status.getField "error" = some e → jsTruthy e = true → jsTypeofObject e = true →
      (fieldEqStr (e.getField "error_type") "download_error" = true →
        classifyFailedJobError (status.getField "error") =
          .rejectDownload (jsErrorMsg (e.getField "message")) e) ∧
      (fieldEqStr (e.getField "error_type") "download_error" = false →
        classifyFailedJobError (status.getField "error") =
          .rejectPlain (jsOrDefault (e.getField "message") e.stringify))) ∧
    (∀ s2 : String, status.getField "error" = some (.str s2) → s2 ≠ "" →
      classifyFailedJobError (status.getField "error") = .rejectPlain s2) ∧
    (status.getField "error" = none →
      classifyFailedJobError (status.getField "error") = .rejectPlain msgJobFailedDefault) ∧
    (∀ (r : HttpResponse) (detail : Json), r.ok = false → ctHasJson r = true →
      r.bodyJson = some (.obj [("detail", detail)]) → jsTruthy detail = true →
      fieldEqStr (detail.getField "error_type") "DOWNLOAD_ERROR" = true →
      handleCheckFeedResponse r =
        .errDownload (jsOrDefault (detail.getField "message") msgDownloadDefault) detail) := by
  have hv := fieldEqStr_some h
  have hpoll : pollTick status =
      .rejectFailed (classifyFailedJobError (status.getField "error")) := by
    simp only [pollTick, fieldEqStr_of_eq hv]
    simp
  refine ⟨hpoll, by rw [hpoll]; rfl, ?_, ?_, ?_, ?_⟩
  · intro e he htr hobj
    constructor
    · intro hd
      rw [he]
      simp [classifyFailedJobError, htr, hobj, hd]
    · intro hd
      rw [he]
      simp [classifyFailedJobError, htr, hobj, hd]
  · intro s2 hs hne
    rw [hs]
    simp [classifyFailedJobError, jsTruthy, jsTypeofObject, jsOrDefault, jsDisplay, hne]
  · intro hnone
    rw [hnone]
    rfl
  · intro r detail hok hct hb htr hd
    have hdet : (Json.obj [("detail", detail)]).getField "detail" = some detail := rfl
    simp [handleCheckFeedResponse, hok, hct, hb, hdet, htr, hd]

/-- Witness for C8: a failed status with a download-shaped embedded
error rejects with the whole embedded object attached verbatim. -/
theorem pollFailed_classification_witness :
    pollTick sampleFailedDownloadStatus =
      .rejectFailed (classifyFailedJobError (sampleFailedDownloadStatus.getField "error")) ∧
    classifyFailedJobError (sampleFailedDownloadStatus.getField "error") =
      .rejectDownload "Файл не найден"
        (.obj [("error_type", .str "download_error"), ("error_code", .str "HTTP_ERROR"),
          ("message", .str "Файл не найден"), ("http_status", .num 404)]) :=
  ⟨(pollFailed_classification sampleFailedDownloadStatus rfl).1,
   ((pollFailed_classification sampleFailedDownloadStatus rfl).2.2.1 _ rfl rfl rfl).1 rfl⟩

/-- Counterexample for C8 as stated: a failed status whose `error` is
the plain string `"boom"` rejects with message `"boom"` — the string
itself, not the generic message the claim announces for the
plain-string case. -/
theorem pollFailed_string_counterexample :
    pollTick cexFailedStatus = .rejectFailed (.rejectPlain "boom") ∧
    "boom" ≠ msgJobFailedDefault :=
  ⟨rfl, by decide⟩

/-! ### C9 -/

/-- Claim C9 (amended): `deleteJob` tolerates any non-JSON response
that is not an HTML page and returns without raising, and raises the
Connection-kind 502 error on an HTML body; but a non-OK response with
a JSON content type is not tolerated — it raises the generic
status-line deletion error.  An OK JSON response returns without
reading the body. -/
theorem deleteJob_response_tolerance (r : HttpResponse) :
    (ctHasJson r = false → htmlBody r = false → handleDeleteJobResponse r = .successUnit) ∧
    (ctHasJson r = false → htmlBody r = true →
      handleDeleteJobResponse r = .errPlain msg502Short) ∧
    (ctHasJson r = true → r.ok = true → handleDeleteJobResponse r = .successUnit) ∧
    (ctHasJson r = true → r.ok = false →
      handleDeleteJobResponse r = .errPlain (statusLine r)) := by
  refine ⟨?_, ?_, ?_, ?_⟩ <;> intro h1 h2 <;> simp [handleDeleteJobResponse, h1, h2]

/-- Witness for C9: a non-OK plain-text response is tolerated and
returns silently. -/
theorem deleteJob_response_tolerance_witness :
    handleDeleteJobResponse ⟨false, 405, "Method Not Allowed", "text/plain", "nope", none⟩ =
      .successUnit :=
  (deleteJob_response_tolerance ⟨false, 405, "Method Not Allowed", "text/plain", "nope", none⟩).1
    rfl rfl

/-- Counterexample for C9 as stated: a non-OK JSON response (status
500 with a JSON `detail` body) is not an HTML error page, yet
`deleteJob` raises instead of returning without raising. -/
theorem deleteJob_notOk_counterexample :
    handleDeleteJobResponse cexDeleteResp = .errPlain "Ошибка 500: Internal Server Error" ∧
    ¬ handleDeleteJobResponse cexDeleteResp = .successUnit :=
  ⟨rfl, fun hcon => ApiOutcome.noConfusion hcon⟩

/-! ### C10 -/

/-- Claim C10: an event whose data does not parse as JSON is terminal:
the handler closes the connection and rejects with the
response-processing error, and a malformed event after any run of
non-terminal events settles the whole stream with that rejection — it
is never silently skipped. -/
theorem streamMalformed_event_terminal :
    handleSseMessage none = .rejectParseFailure ∧
    (handleSseMessage none).closesConnection = true ∧
    (∀ pre rest, (∀ ev ∈ pre, ∃ emit, handleSseMessage ev = .keepOpen emit) →
      runStream (pre ++ none :: rest) = .rejectedParse) := by
  refine ⟨rfl, rfl, ?_⟩
  intro pre rest hpre
  induction pre with
  | nil => simp [runStream, handleSseMessage]
  | cons ev tail ih =>
    obtain ⟨emit, hev⟩ := hpre ev (by simp)
    have htail : ∀ e2 ∈ tail, ∃ emit2, handleSseMessage e2 = .keepOpen emit2 := by
      intro e2 he2
      exact hpre e2 (by simp [he2])
    simp [runStream, hev, ih htail]

/-- Witness for C10: a well-formed start event followed by a
malformed event rejects the stream with the processing error. -/
theorem streamMalformed_event_terminal_witness :
    runStream [some (.obj [("type", .str "start")]), none] = .rejectedParse :=
  streamMalformed_event_terminal.2.2 [some (.obj [("type", .str "start")])] []
    (by intro ev hev; simp only [List.mem_singleton] at hev; subst hev; exact ⟨_, rfl⟩)
